import Mathlib

/-!
# Verification of the video_organizer media-identification core

Shallow embedding of `src/video_organizer/core/identify/_media_identifier.py`,
`src/video_organizer/core/identify/_base.py` and
`src/video_organizer/core/_process_media.py`, together with theorems settling
the specification claims about them.

Modelling conventions:
* Parsed ffprobe JSON documents are modelled with explicit value layers that
  mirror the depth actually produced by ffprobe: scalar leaves (`JLeaf`),
  values inside a stream/format dictionary (`JVal1`, which may be a flat
  object such as `tags` or `disposition`), and top-level values (`JVal2`,
  which may be the `format` object or the `streams` array).
* Python `dict` objects are insertion-ordered association lists; assignment
  updates in place when the key is present and appends otherwise (`dictSet`),
  `.get` returns the first (unique) binding (`dGet` / `dGetD`).
* Python numbers are embedded as `Int`/`Rat` (no floating point is needed by
  any claim; the source's numeric derivations are exact on the inputs the
  claims use).
* Python code stores fetched dictionary values without runtime type checks;
  the embedding enforces the dataclass annotations of the source, so each
  extractor returns an `Option` result which is `none` on a document that
  violates the probe schema's field types. All documents appearing in
  theorems and witnesses below are schema-typed, where the two readings
  agree.
* Stateful class-level code (`_MediaInfo.__new__/__init__`, `_get_tracks_data`)
  is embedded as explicit state passing.
-/

/-! ## Generic Python dict operations -/

/-- `d.get(k)` on an insertion-ordered dict: first binding of key `k`. -/
def dGet {α β : Type} [BEq α] (d : List (α × β)) (k : α) : Option β :=
  (d.find? (fun p => p.1 == k)).map (fun p => p.2)

/-- `d.get(k, dflt)`. -/
def dGetD {α β : Type} [BEq α] (d : List (α × β)) (k : α) (dflt : β) : β :=
  (dGet d k).getD dflt

/-- `k in d`. -/
def dMem {α β : Type} [BEq α] (d : List (α × β)) (k : α) : Bool :=
  d.any (fun p => p.1 == k)

/-- `d[k] = v`: update in place when present, append otherwise. -/
def dictSet {α β : Type} [BEq α] (d : List (α × β)) (k : α) (v : β) :
    List (α × β) :=
  if dMem d k then d.map (fun p => if p.1 == k then (k, v) else p)
  else d ++ [(k, v)]

/-! ## JSON document model (ffprobe output as parsed by `json.loads`) -/

/-- A scalar JSON value. -/
inductive JLeaf : Type where
  | s (v : String)
  | n (v : ℚ)
  | b (v : Bool)
  | null
  deriving DecidableEq, Repr

/-- A value inside a stream / format dictionary: a scalar, or a flat object
such as `tags` or `disposition`. -/
inductive JVal1 : Type where
  | leaf (v : JLeaf)
  | obj (o : List (String × JLeaf))
  deriving DecidableEq, Repr

/-- A stream dictionary (also the `format` dictionary). -/
abbrev Dict1 : Type := List (String × JVal1)

/-- A top-level value of the probe document: scalar, the `format` object, or
the `streams` array. -/
inductive JVal2 : Type where
  | leaf (v : JLeaf)
  | obj (o : Dict1)
  | arr (xs : List Dict1)
  deriving DecidableEq, Repr

/-- The parsed probe document (`self._raw_info`). -/
abbrev RawInfo : Type := List (String × JVal2)

/-! ## Python conversions

`pyInt`/`pyFloat` model `int(x)` / `float(x)`; `asStr`, `asBool`, `asObj`
enforce the dataclass annotation of a field whose value the source stores
without conversion (returning `none` on a document that is not schema-typed).
-/

/-- Truncation toward zero, as Python `int()` on a number. -/
def ratTrunc (q : ℚ) : ℤ := if 0 ≤ q then ⌊q⌋ else ⌈q⌉

/-- Parse a string of decimal digits; `none` if empty or non-digit. -/
def parseDigits (cs : List Char) : Option ℕ :=
  match cs with
  | [] => none
  | _ =>
    cs.foldl (fun acc c =>
      match acc with
      | none => none
      | some n => if c.isDigit then some (n * 10 + (c.toNat - 48)) else none)
      (some 0)

/-- Python `int(s)` for a decimal string with optional sign. -/
def parseInt (s : String) : Option ℤ :=
  match s.data with
  | '-' :: rest => (parseDigits rest).map (fun n => -(n : ℤ))
  | '+' :: rest => (parseDigits rest).map (fun n => (n : ℤ))
  | cs => (parseDigits cs).map (fun n => (n : ℤ))

/-- Split a character list at every occurrence of the separator (Python
`str.split` with a one-character separator). -/
def splitOnChar (c : Char) : List Char → List (List Char)
  | [] => [[]]
  | x :: rest =>
    match splitOnChar c rest with
    | [] => [[x]]
    | g :: gs => if x == c then [] :: g :: gs else (x :: g) :: gs

/-- Python `s.split(sep)` for a one-character separator. -/
def strSplitOn (c : Char) (s : String) : List String :=
  (splitOnChar c s.data).map (fun l => String.mk l)

/-- Python `float(s)` for a decimal string `[sign]digits[.digits]`. -/
def parseFloat (s : String) : Option ℚ :=
  let parseUnsigned : List Char → Option ℚ := fun cs =>
    match splitOnChar '.' cs with
    | [intPart] => (parseDigits intPart).map (fun n => (n : ℚ))
    | [intPart, fracPart] =>
      let ip : Option ℕ := if intPart.isEmpty then some 0 else parseDigits intPart
      let fp : Option ℕ := if fracPart.isEmpty then some 0 else parseDigits fracPart
      match ip, fp with
      | some i, some f => some ((i : ℚ) + (f : ℚ) / (((10 : ℕ) ^ fracPart.length : ℕ) : ℚ))
      | _, _ => none
    | _ => none
  match s.data with
  | '-' :: rest => (parseUnsigned rest).map (fun q => -q)
  | '+' :: rest => parseUnsigned rest
  | cs => parseUnsigned cs

/-- Python `int(x)` on a scalar JSON value. -/
def pyIntL (v : JLeaf) : Option ℤ :=
  match v with
  | .n q => some (ratTrunc q)
  | .s s => parseInt s
  | .b b => some (if b then 1 else 0)
  | .null => none

/-- Python `float(x)` on a scalar JSON value. -/
def pyFloatL (v : JLeaf) : Option ℚ :=
  match v with
  | .n q => some q
  | .s s => parseFloat s
  | .b b => some (if b then 1 else 0)
  | .null => none

/-- Enforce a `str` annotation on a scalar value. -/
def asStrL (v : JLeaf) : Option String :=
  match v with
  | .s s => some s
  | _ => none

/-- Enforce a `bool` annotation on a scalar value (ffprobe dispositions are
the integers 0/1, observationally equal to Python booleans). -/
def asBoolL (v : JLeaf) : Option Bool :=
  match v with
  | .b b => some b
  | .n q => some (q ≠ 0)
  | _ => none

/-- Enforce an `int` annotation on a scalar value stored without conversion
(ffprobe emits some integer fields as strings, which Python `int()` accepts). -/
def asIntL (v : JLeaf) : Option ℤ := pyIntL v

/-- A `JVal1` that must be a scalar. -/
def asLeaf1 (v : JVal1) : Option JLeaf :=
  match v with
  | .leaf l => some l
  | .obj _ => none

def pyInt1 (v : JVal1) : Option ℤ := (asLeaf1 v).bind pyIntL
def pyFloat1 (v : JVal1) : Option ℚ := (asLeaf1 v).bind pyFloatL
def asStr1 (v : JVal1) : Option String := (asLeaf1 v).bind asStrL
def asBool1 (v : JVal1) : Option Bool := (asLeaf1 v).bind asBoolL
def asInt1 (v : JVal1) : Option ℤ := (asLeaf1 v).bind asIntL

/-- A `JVal1` used with `.get(...)`: must be a flat object. -/
def asObj1 (v : JVal1) : Option (List (String × JLeaf)) :=
  match v with
  | .leaf _ => none
  | .obj o => some o

/-- A `JVal2` used with `.get(...)`: must be an object. -/
def asObj2 (v : JVal2) : Option Dict1 :=
  match v with
  | .obj o => some o
  | _ => none

/-- A `JVal2` iterated as the `streams` list: must be an array. -/
def asArr2 (v : JVal2) : Option (List Dict1) :=
  match v with
  | .arr xs => some xs
  | _ => none

/-! ## Numeric formatting helpers (Python `%`, `round`, f-strings) -/

/-- Python `%` on numbers (floor-based modulo). -/
def qmod (a b : ℚ) : ℚ := a - b * ⌊a / b⌋

/-- Round to the nearest integer, ties to even (Python `round`). -/
def roundHalfEven (q : ℚ) : ℤ :=
  let f := ⌊q⌋
  let r := q - f
  if r < 1 / 2 then f
  else if 1 / 2 < r then f + 1
  else if Even f then f else f + 1

/-- Python `round(q, 5)`. -/
def pyRound5 (q : ℚ) : ℚ := (roundHalfEven (q * 100000) : ℚ) / 100000

/-- Left-pad a string to the given length with the given character. -/
def padLeft (s : String) (len : ℕ) (c : Char) : String :=
  ⟨List.replicate (len - s.data.length) c ++ s.data⟩

/-- Python `f'{i:0Wd}'`: decimal, zero-filled to width `w` (sign kept first). -/
def fmtIntPad (w : ℕ) (i : ℤ) : String :=
  if i < 0 then "-" ++ padLeft (toString (-i)) (w - 1) '0'
  else padLeft (toString i) w '0'

/-- Python `f'{q:06.3f}'`: three decimals, zero-filled to width 6. -/
def fmtFixed3Pad6 (q : ℚ) : String :=
  let n := roundHalfEven (q * 1000)
  let m := n.natAbs
  let core := toString (m / 1000) ++ "." ++ padLeft (toString (m % 1000)) 3 '0'
  if n < 0 then "-" ++ padLeft core 5 '0' else padLeft core 6 '0'

/-! ## Lookup tables (`core/identify/_base.py`) -/

/-- Modelled from the spec: the data file `info/ISO_639-2.json` backing
`LANGUAGE_CODES` is not part of the source tree; the spec describes it as an
ISO-639-2 language-code-to-name table and its end-to-end scenario A fixes the
entry `"eng" ↦ "English"`. Only that entry is needed by any claim. -/
def LANGUAGE_CODES : List (String × String) := [("eng", "English")]

/-- `VIDEO_RESOLUTION_STANDARDS` from `core/identify/_base.py`. -/
def VIDEO_RESOLUTION_STANDARDS : List (String × String) := [
  ("320x240", "QVGA"),
  ("352x240", "SIF"),
  ("352x288", "CIF"),
  ("352x480", "480i"),
  ("480x320", "HVGA"),
  ("640x480", "480p"),
  ("720x480", "SD_NTSC"),
  ("720x576", "576i"),
  ("768x576", "SD_PAL+"),
  ("854x480", "FWVGA"),
  ("960x540", "qHD"),
  ("1024x576", "576p"),
  ("1024x768", "XGA"),
  ("960x720", "720p"),
  ("1152x648", "720p"),
  ("1280x720", "720p"),
  ("1280x800", "800p"),
  ("1280x960", "960p"),
  ("1280x1080", "1080p"),
  ("1366x768", "768p"),
  ("1440x900", "WXGA+"),
  ("1440x1080", "1080p"),
  ("1440x1440", "Square_HD"),
  ("1600x900", "900p"),
  ("1600x1200", "UXGA"),
  ("1620x1080", "1080_WIDE"),
  ("1680x1050", "WSXGA+"),
  ("1920x1080", "1080p"),
  ("1920x1200", "1200p"),
  ("2400x1600", "Full_HD+"),
  ("2560x1080", "UWFHD"),
  ("3840x1080", "DFHD"),
  ("1920x1440", "QHD"),
  ("1998x1080", "2K_Flat"),
  ("2048x858", "2K_Scope"),
  ("2048x1080", "2K_DCI"),
  ("2048x1536", "2K_DCI"),
  ("2560x1440", "1440p"),
  ("2560x1600", "WQXGA"),
  ("2560x2048", "QSXGA"),
  ("2732x1536", "iPad_Pro"),
  ("3200x1440", "WQHD+"),
  ("3200x1800", "QHD+"),
  ("3440x1440", "2K_UWQHD"),
  ("3840x1600", "UWQHD+"),
  ("3840x2400", "4K WQUXGA"),
  ("3996x2160", "4K_Flat"),
  ("4096x1716", "4K_Scope"),
  ("4096x2160", "4K_DCI"),
  ("5120x1440", "DQHD"),
  ("5120x2880", "5K"),
  ("5120x3200", "5K"),
  ("6016x3384", "6K"),
  ("7680x3200", "8K UWD"),
  ("3840x2160", "2160p"),
  ("7680x4320", "4320p"),
  ("1828x1332", "2K_Academy"),
  ("2880x2160", "3K"),
  ("3072x2160", "3K"),
  ("3656x2664", "4K_Academy"),
  ("4096x2304", "4K UHD+"),
  ("4096x3072", "4K Full"),
  ("5120x2160", "5K"),
  ("6144x3160", "6K_IMAX"),
  ("6144x3456", "6K Full"),
  ("8192x3428", "8K_Ultra"),
  ("8192x4320", "8K_Full"),
  ("8192x5460", "8K Full"),
  ("10240x4320", "10K"),
  ("11520x6480", "11K_IMAX")]

/-! ## Duration conversions (`_convert_duration_to_str` / `_convert_duration_to_sec`) -/

/-- `_MediaInfo._convert_duration_to_str`: seconds to `HH:MM:SS.mmm`. -/
def convertDurationToStr (duration : ℚ) : String :=
  if duration = 0 then "00:00:00.000"
  else
    let h : ℤ := ⌊duration / 3600⌋
    let m : ℤ := ⌊(qmod duration 3600) / 60⌋
    let s : ℚ := qmod duration 60
    fmtIntPad 2 h ++ ":" ++ fmtIntPad 2 m ++ ":" ++ fmtFixed3Pad6 s

/-- `_MediaInfo._convert_duration_to_sec`: `HH:MM:SS.mmm` to seconds
(`none` when `float(...)` or the 3-way unpacking would raise). -/
def convertDurationToSec (durationStr : String) : Option ℚ :=
  if durationStr = "" then some 0
  else
    match strSplitOn ':' durationStr with
    | [a, b, c] =>
      match parseFloat a, parseFloat b, parseFloat c with
      | some h, some m, some s => some (h * 3600 + m * 60 + s)
      | _, _, _ => none
    | _ => none

/-! ## FormatData (`_MediaInfo._get_format_data`) -/

/-- The `FormatData` dataclass. -/
structure FormatData : Type where
  score : ℤ
  size : ℤ
  duration : ℚ
  duration_str : String
  format : String
  format_long_name : String
  bitrate : ℤ
  encoder : String
  encoding_info : String
  deriving DecidableEq, Repr

/-- `_MediaInfo._get_format_data` (pure part; the `_increase_cached_size`
side effect adds the returned record's `size` to the class counter and is
modelled with the instance-cache state below). -/
def getFormatData (rawInfo : RawInfo) : Option FormatData := do
  let fmt ← asObj2 (dGetD rawInfo "format" (.obj []))
  let tags ← asObj1 (dGetD fmt "tags" (.obj []))
  let size ← pyInt1 (dGetD fmt "size" (.leaf (.n 0)))
  let duration ← pyFloat1 (dGetD fmt "duration" (.leaf (.n 0)))
  let formatName ← asStr1 (dGetD fmt "format_name" (.leaf (.s "Unknown")))
  let formatLongName ← asStr1 (dGetD fmt "format_long_name" (.leaf (.s formatName)))
  let score ← pyInt1 (dGetD fmt "probe_score" (.leaf (.n 0)))
  let bitrate ← pyInt1 (dGetD fmt "bit_rate" (.leaf (.n 0)))
  let encoder ← asStrL (dGetD tags "ENCODER" (.s "Unknown"))
  let encodingInfo ← asStrL (dGetD tags "ENCODING_INFO" (.s "Unknown"))
  pure {
    score := score
    size := size
    duration := duration
    duration_str := convertDurationToStr duration
    format := formatName
    format_long_name := formatLongName
    bitrate := bitrate
    encoder := encoder
    encoding_info := encodingInfo }

/-! ## Track records (`VideoTrack`, `AudioTrack`, `SubtitleTrack`, `AttachTrack`) -/

structure VideoTrack : Type where
  index : Option ℤ
  default : Bool
  forced : Bool
  codec : String
  language : String
  duration : String
  duration_sec : ℚ
  fps : ℚ
  bps : ℤ
  display_dimensions : String
  display_width : ℤ
  display_height : ℤ
  display_aspect_ratio : String
  display_resolution : String
  pixel_width : ℤ
  pixel_height : ℤ
  pixel_dimensions : String
  pixel_format : String
  color_range : String
  color_space : String
  color_transfer : String
  color_primaries : String
  deriving DecidableEq, Repr

structure AudioTrack : Type where
  index : Option ℤ
  codec : String
  channels : ℤ
  sample_rate : ℤ
  language : String
  bit_depth : ℤ
  duration : ℚ
  deriving DecidableEq, Repr

structure SubtitleTrack : Type where
  index : Option ℤ
  codec : String
  language : String
  forced : Bool
  default : Bool
  hearing_impaired : Bool
  visual_impaired : Bool
  font_name : String
  mimetype : String
  duration : ℚ
  deriving DecidableEq, Repr

structure AttachTrack : Type where
  index : Option ℤ
  codec : String
  filename : String
  mimetype : String
  disposition : List (String × JLeaf)
  deriving DecidableEq, Repr

/-- The `TrackTypes` tagged union of the source. -/
inductive TrackTypes : Type where
  | video (t : VideoTrack)
  | audio (t : AudioTrack)
  | subtitle (t : SubtitleTrack)
  | attach (t : AttachTrack)
  deriving DecidableEq, Repr

/-- The `index` field of whichever variant. -/
def TrackTypes.trackIndex : TrackTypes → Option ℤ
  | .video t => t.index
  | .audio t => t.index
  | .subtitle t => t.index
  | .attach t => t.index

/-! ## Field-reading helpers shared by the extractors -/

/-- `track.get('index', None)`: `some none` when the key is absent (Python
`None`), `some (some i)` for an integer value, `none` when the document is
not schema-typed (a non-integer index would become a differently-typed dict
key in Python). -/
def readIndex (track : Dict1) : Option (Option ℤ) :=
  match dGet track "index" with
  | none => some none
  | some (.leaf (.n q)) => if q.den = 1 then some (some q.num) else none
  | some _ => none

/-- `LANGUAGE_CODES.get(key, 'Unknown')` for a scalar key (every scalar is
hashable; only string keys can hit the string-keyed table). -/
def langOfLeaf (v : JLeaf) : String :=
  match v with
  | .s s => dGetD LANGUAGE_CODES s "Unknown"
  | _ => "Unknown"

/-- `LANGUAGE_CODES.get(key, 'Unknown')` where the key was read straight off
the stream dictionary (an object key would be unhashable and raise). -/
def langOfVal1 (v : JVal1) : Option String :=
  match v with
  | .leaf l => some (langOfLeaf l)
  | .obj _ => none

/-- `track.get('codec_long_name', track.get('codec_name', 'Unknown'))`. -/
def readCodecLong (track : Dict1) : Option String :=
  asStr1 (dGetD track "codec_long_name"
    (dGetD track "codec_name" (.leaf (.s "Unknown"))))

/-! ## `_MediaInfo._extract_video_info` -/


/-- `_disposition.get(key, False)` for a disposition flag. -/
def readFlag (disposition : List (String × JLeaf)) (k : String) : Option Bool :=
  asBoolL (dGetD disposition k (.b false))

/-- The `width`/`height`/`coded_width`/`coded_height` reads of
`_extract_video_info` (defaults 0). -/
def readVideoGeometry (track : Dict1) : Option (ℤ × ℤ × ℤ × ℤ) := do
  let displayWidth ← asInt1 (dGetD track "width" (.leaf (.n 0)))
  let displayHeight ← asInt1 (dGetD track "height" (.leaf (.n 0)))
  let pixelWidth ← asInt1 (dGetD track "coded_width" (.leaf (.n 0)))
  let pixelHeight ← asInt1 (dGetD track "coded_height" (.leaf (.n 0)))
  pure (displayWidth, displayHeight, pixelWidth, pixelHeight)

/-- The `tags` reads of `_extract_video_info`: `DURATION` (default `''`,
then `_convert_duration_to_sec`), `int(NUMBER_OF_FRAMES)` (default 0) and
`BPS` (default 0). -/
def readVideoTagData (tags : List (String × JLeaf)) :
    Option (String × ℚ × ℤ × ℤ) := do
  let duration ← asStrL (dGetD tags "DURATION" (.s ""))
  let durationSec ← convertDurationToSec duration
  let totalFrames ← pyIntL (dGetD tags "NUMBER_OF_FRAMES" (.n 0))
  let bps ← pyIntL (dGetD tags "BPS" (.n 0))
  pure (duration, durationSec, totalFrames, bps)

/-- The string-valued stream reads of `_extract_video_info` (each defaulting
to `'Unknown'`): aspect ratio, pixel format, and the four color fields. -/
def readVideoStrings (track : Dict1) :
    Option (String × String × String × String × String × String) := do
  let displayAspectRatio ← asStr1 (dGetD track "display_aspect_ratio" (.leaf (.s "Unknown")))
  let pixelFormat ← asStr1 (dGetD track "pix_fmt" (.leaf (.s "Unknown")))
  let colorRange ← asStr1 (dGetD track "color_range" (.leaf (.s "Unknown")))
  let colorSpace ← asStr1 (dGetD track "color_space" (.leaf (.s "Unknown")))
  let colorTransfer ← asStr1 (dGetD track "color_transfer" (.leaf (.s "Unknown")))
  let colorPrimaries ← asStr1 (dGetD track "color_primaries" (.leaf (.s "Unknown")))
  pure (displayAspectRatio, pixelFormat, colorRange, colorSpace, colorTransfer, colorPrimaries)

/-- `_MediaInfo._extract_video_info`: the frame rate is
`round(frames / seconds, 5)` when both are truthy (nonzero), else `0`;
the division therefore never happens with a zero divisor. -/
def extractVideoInfo (track : Dict1) : Option VideoTrack := do
  let disposition ← asObj1 (dGetD track "disposition" (.obj []))
  let tags ← asObj1 (dGetD track "tags" (.obj []))
  let (displayWidth, displayHeight, pixelWidth, pixelHeight) ← readVideoGeometry track
  let (duration, durationSec, totalFrames, bps) ← readVideoTagData tags
  let (displayAspectRatio, pixelFormat, colorRange, colorSpace, colorTransfer,
    colorPrimaries) ← readVideoStrings track
  let index ← readIndex track
  let dispDefault ← readFlag disposition "default"
  let dispForced ← readFlag disposition "forced"
  let codec ← readCodecLong track
  let displayDimensions := toString displayWidth ++ "x" ++ toString displayHeight
  let pixelDimensions := toString pixelWidth ++ "x" ++ toString pixelHeight
  let fps : ℚ :=
    if durationSec ≠ 0 ∧ totalFrames ≠ 0 then
      pyRound5 ((totalFrames : ℚ) / durationSec)
    else 0
  pure {
    index := index
    default := dispDefault
    forced := dispForced
    codec := codec
    language := langOfLeaf (dGetD tags "language" (.s ""))
    duration := duration
    duration_sec := durationSec
    fps := fps
    bps := bps
    display_dimensions := displayDimensions
    display_width := displayWidth
    display_height := displayHeight
    display_aspect_ratio := displayAspectRatio
    display_resolution := dGetD VIDEO_RESOLUTION_STANDARDS displayDimensions "Unknown"
    pixel_width := pixelWidth
    pixel_height := pixelHeight
    pixel_dimensions := pixelDimensions
    pixel_format := pixelFormat.toUpper
    color_range := colorRange
    color_space := colorSpace
    color_transfer := colorTransfer
    color_primaries := colorPrimaries }

/-! ## `_MediaInfo._extract_audio_info`

Note: the source reads the language key from the stream dictionary itself
(`track.get('language', '')`), not from the stream's `tags` object. -/

def extractAudioInfo (track : Dict1) : Option AudioTrack := do
  let index ← readIndex track
  let codec ← readCodecLong track
  let channels ← asInt1 (dGetD track "channels" (.leaf (.n 0)))
  let sampleRate ← asInt1 (dGetD track "sample_rate" (.leaf (.n 0)))
  let language ← langOfVal1 (dGetD track "language" (.leaf (.s "")))
  let bitDepth ← asInt1 (dGetD track "bits_per_sample" (.leaf (.n 0)))
  let duration ← pyFloat1 (dGetD track "duration" (.leaf (.n 0)))
  pure {
    index := index
    codec := codec
    channels := channels
    sample_rate := sampleRate
    language := language
    bit_depth := bitDepth
    duration := duration }

/-! ## `_MediaInfo._extract_subtitle_info`

Note: like the audio extractor, the language key is read from the stream
dictionary itself, not from its `tags` object. -/

/-- The four `disposition` flag reads of `_extract_subtitle_info`. -/
def readSubtitleFlags (track : Dict1) :
    Option (Bool × Bool × Bool × Bool) := do
  let disposition ← asObj1 (dGetD track "disposition" (.obj []))
  let forced ← readFlag disposition "forced"
  let default ← readFlag disposition "default"
  let hearingImpaired ← readFlag disposition "hearing_impaired"
  let visualImpaired ← readFlag disposition "visual_impaired"
  pure (forced, default, hearingImpaired, visualImpaired)

/-- The `tags` reads of `_extract_subtitle_info`: `filename` and `mimetype`
(each defaulting to `'Unknown'`). -/
def readSubtitleTagData (track : Dict1) : Option (String × String) := do
  let tags ← asObj1 (dGetD track "tags" (.obj []))
  let fontName ← asStrL (dGetD tags "filename" (.s "Unknown"))
  let mimetype ← asStrL (dGetD tags "mimetype" (.s "Unknown"))
  pure (fontName, mimetype)

def extractSubtitleInfo (track : Dict1) : Option SubtitleTrack := do
  let index ← readIndex track
  let codec ← asStr1 (dGetD track "codec_name" (.leaf (.s "Unknown")))
  let language ← langOfVal1 (dGetD track "language" (.leaf (.s "")))
  let (forced, default, hearingImpaired, visualImpaired) ← readSubtitleFlags track
  let (fontName, mimetype) ← readSubtitleTagData track
  let duration ← pyFloat1 (dGetD track "duration" (.leaf (.n 0)))
  pure {
    index := index
    codec := codec
    language := language
    forced := forced
    default := default
    hearing_impaired := hearingImpaired
    visual_impaired := visualImpaired
    font_name := fontName
    mimetype := mimetype
    duration := duration }

/-! ## `_MediaInfo._extract_attach_info` -/

def extractAttachInfo (track : Dict1) : Option AttachTrack := do
  let tags ← asObj1 (dGetD track "tags" (.obj []))
  let index ← readIndex track
  let codec ← asStr1 (dGetD track "codec_name" (.leaf (.s "Unknown")))
  let filename ← asStrL (dGetD tags "filename" (.s "Unknown"))
  let mimetype ← asStrL (dGetD tags "mimetype" (.s "Unknown"))
  let disposition ← asObj1 (dGetD track "disposition" (.obj []))
  pure {
    index := index
    codec := codec
    filename := filename
    mimetype := mimetype
    disposition := disposition }

/-! ## `_MediaInfo._get_tracks_data` (per-track classification state machine) -/

/-- The per-file classification state initialised by `_MediaInfo.__init__`:
`_tracks`, `_tracks_by_type`, the four typed buckets, and `_attach_fonts`. -/
structure TracksState : Type where
  tracks : List (ℤ × String)
  tracks_by_type : List (String × List ℤ)
  video_tracks : List (ℤ × VideoTrack)
  audio_tracks : List (ℤ × AudioTrack)
  subtitle_tracks : List (ℤ × SubtitleTrack)
  attach_tracks : List (ℤ × AttachTrack)
  attach_fonts : ℤ
  deriving DecidableEq, Repr

def initTracksState : TracksState :=
  { tracks := [], tracks_by_type := [], video_tracks := [], audio_tracks := []
    subtitle_tracks := [], attach_tracks := [], attach_fonts := 0 }

/-- The common tail of each recognized case of the loop body:
`self._tracks[data.index] = track_type` followed by appending the index to
`self._tracks_by_type[track_type]` (creating the empty list first when the
type key is new). -/
def recordTrack (st : TracksState) (trackType : String) (i : ℤ) : TracksState :=
  { st with
    tracks := dictSet st.tracks i trackType
    tracks_by_type :=
      dictSet st.tracks_by_type trackType
        ((dGet st.tracks_by_type trackType).getD [] ++ [i]) }

/-- `track.get('codec_name', '') in ['ttf', 'ttc', 'woff', 'woff2']`. -/
def isFontCodec (track : Dict1) : Bool :=
  match dGetD track "codec_name" (.leaf (.s "")) with
  | .leaf (.s s) => ["ttf", "ttc", "woff", "woff2"].contains s
  | _ => false

/-- One iteration of the `for track in _tracks` loop of `_get_tracks_data`:
dispatch on `codec_type` (a non-matching or `'Unknown'` type is only warned
about and skipped), drop a track with no index (warning + `continue`),
insert into the typed bucket only when the index is not already present,
then record the index in `_tracks` and `_tracks_by_type`. `none` models an
extractor raising on a document that is not schema-typed. -/
def processTrack (st : TracksState) (track : Dict1) : Option TracksState :=
  let ct := dGetD track "codec_type" (.leaf (.s "Unknown"))
  if ct = .leaf (.s "video") then
    (extractVideoInfo track).bind (fun data =>
      data.index.elim (some st) (fun i =>
        let st1 := if dMem st.video_tracks i then st
          else { st with video_tracks := dictSet st.video_tracks i data }
        some (recordTrack st1 "video" i)))
  else if ct = .leaf (.s "audio") then
    (extractAudioInfo track).bind (fun data =>
      data.index.elim (some st) (fun i =>
        let st1 := if dMem st.audio_tracks i then st
          else { st with audio_tracks := dictSet st.audio_tracks i data }
        some (recordTrack st1 "audio" i)))
  else if ct = .leaf (.s "subtitle") then
    (extractSubtitleInfo track).bind (fun data =>
      data.index.elim (some st) (fun i =>
        let st1 := if dMem st.subtitle_tracks i then st
          else { st with subtitle_tracks := dictSet st.subtitle_tracks i data }
        some (recordTrack st1 "subtitle" i)))
  else if ct = .leaf (.s "attachment") then
    (extractAttachInfo track).bind (fun data =>
      data.index.elim (some st) (fun i =>
        let st1 := if isFontCodec track
          then { st with attach_fonts := st.attach_fonts + 1 } else st
        let st2 := if dMem st1.attach_tracks i then st1
          else { st1 with attach_tracks := dictSet st1.attach_tracks i data }
        some (recordTrack st2 "attachment" i)))
  else some st

/-- `_MediaInfo._get_tracks_data` over the document's `streams` list. -/
def getTracksData (streams : List Dict1) : Option TracksState :=
  streams.foldlM processTrack initTracksState

/-! ### The track-count properties of `_MediaInfo` -/

def totalTracks (st : TracksState) : ℕ := st.tracks.length

def totalVideoTracks (st : TracksState) : ℕ := st.video_tracks.length

def totalAudioTracks (st : TracksState) : ℕ := st.audio_tracks.length

def totalSubtitleTracks (st : TracksState) : ℕ := st.subtitle_tracks.length

def totalAttachTracks (st : TracksState) : ℕ := st.attach_tracks.length

/-! ### Views used to state per-type-bucket claims uniformly -/

/-- The typed-bucket extractor dispatched by a recognized `codec_type`. -/
def extractTrackOfType (t : String) (track : Dict1) : Option TrackTypes :=
  if t = "video" then (extractVideoInfo track).map TrackTypes.video
  else if t = "audio" then (extractAudioInfo track).map TrackTypes.audio
  else if t = "subtitle" then (extractSubtitleInfo track).map TrackTypes.subtitle
  else if t = "attachment" then (extractAttachInfo track).map TrackTypes.attach
  else none

/-- The type bucket for a recognized `codec_type`, as a tagged-union dict. -/
def bucketEntries (st : TracksState) (t : String) : List (ℤ × TrackTypes) :=
  if t = "video" then st.video_tracks.map (fun p => (p.1, TrackTypes.video p.2))
  else if t = "audio" then st.audio_tracks.map (fun p => (p.1, TrackTypes.audio p.2))
  else if t = "subtitle" then
    st.subtitle_tracks.map (fun p => (p.1, TrackTypes.subtitle p.2))
  else if t = "attachment" then
    st.attach_tracks.map (fun p => (p.1, TrackTypes.attach p.2))
  else []

/-- The per-type track count (`total_video_tracks`, …) for a recognized type. -/
def bucketCount (st : TracksState) (t : String) : ℕ := (bucketEntries st t).length

/-! ## `_MediaInfo._get_raw_data` (probe invocation, claim C2)

The interaction with `shutil.which`, `subprocess.run` and `json.loads` is
abstracted into an environment describing what those collaborators would do
for this invocation; `_get_raw_data` itself is translated faithfully on top
of it. -/

/-- What the external collaborators yield for one probe invocation. -/
structure ProbeEnv : Type where
  /-- `shutil.which('ffprobe')`. -/
  whichFFprobe : Option String
  /-- Whether the spawned tool exits zero (`check=True` raises otherwise). -/
  exitZero : Bool
  /-- `str(e)` of the `CalledProcessError` raised on a non-zero exit. -/
  procErrStr : String
  /-- The captured standard output text. -/
  stdout : String
  /-- `json.loads(stdout)`: the parsed document, or `none` for a
  `json.JSONDecodeError`. -/
  jsonParse : Option RawInfo

/-- The outcome of `_get_raw_data`: the document, or one of the raised
exceptions (carrying the exception class and its message). -/
inductive ProbeOutcome : Type where
  | runtimeError (msg : String)
  | queryError (msg : String)
  | jsonDecodeError
  | ok (doc : RawInfo)
  deriving DecidableEq

/-- `_MediaInfo._get_raw_data`: `RuntimeError` when `ffprobe` is not on the
search path; `QueryError` (re-raised from `CalledProcessError`) when the tool
exits non-zero; `QueryError` when the captured standard output is empty
(falsy); `json.JSONDecodeError` when it is non-empty but unparsable. -/
def getRawData (env : ProbeEnv) : ProbeOutcome :=
  match env.whichFFprobe with
  | none =>
    .runtimeError "ffprobe not found, please make sure you installed ffmpeg correctly."
  | some _ =>
    if !env.exitZero then
      .queryError ("[ERROR] Failed to execute ffprobe: " ++ env.procErrStr)
    else if env.stdout = "" then
      .queryError "Failed to get raw data from ffprobe."
    else
      match env.jsonParse with
      | none => .jsonDecodeError
      | some doc => .ok doc

/-! ## `_MediaInfo.__new__` / `__init__` (instance cache, claim C1)

The class-level state of `_MediaInfo` is threaded explicitly. Python `dict`
keys are dynamically typed: `__new__` tests membership with the `Path`
object itself (`if file_path not in cls._files`) but stores under
`str(file_path)`; the key model keeps the two apart exactly as Python's
`==`/`hash` do (a `Path` never equals a `str`). -/

/-- A Python dict key as used around `_MediaInfo._files`: either a `str` or
a `pathlib.Path` (identified by its string form). -/
inductive PyKey : Type where
  | str (s : String)
  | path (s : String)
  deriving DecidableEq, Repr

/-- The class-level state of `_MediaInfo` plus the probe side effects:
`_files` maps keys to instance identities (numbered in creation order),
`_total_file_size` is the class-wide byte counter, `createdIds` records which
instances already ran `__init__` (Python's `hasattr(self, 'created')`), and
`probeLog` records each `_get_raw_data` invocation's file path in order. -/
structure MediaFilesState : Type where
  files : List (PyKey × ℕ)
  totalFileSize : ℤ
  nextId : ℕ
  createdIds : List ℕ
  probeLog : List String
  deriving DecidableEq, Repr

def initMediaFilesState : MediaFilesState :=
  { files := [], totalFileSize := 0, nextId := 0, createdIds := [], probeLog := [] }

/-- `_MediaInfo.__new__(cls, file_path)`: when the `Path` object is not a key
of `_files` (it never is, since keys are strings), create a fresh instance
and store it under `str(file_path)`; return `cls._files[str(file_path)]`
(`none` would model the impossible `KeyError`). -/
def mediaInfoNew (filePath : String) (st : MediaFilesState) :
    Option ℕ × MediaFilesState :=
  let st1 :=
    if st.files.any (fun kv => kv.1 == PyKey.path filePath) then st
    else { st with
      files := dictSet st.files (PyKey.str filePath) st.nextId
      nextId := st.nextId + 1 }
  (dGet st1.files (PyKey.str filePath), st1)

/-- `_MediaInfo.__init__(self, file_path)`: when the instance does not yet
have the `created` attribute, probe the file (`_get_raw_data`), build the
format data — whose `_increase_cached_size(_size)` adds the file's size to
the class counter — and mark the instance created. `size` is the probed
file's `format.size`. -/
def mediaInfoInit (filePath : String) (size : ℤ) (inst : ℕ)
    (st : MediaFilesState) : MediaFilesState :=
  if st.createdIds.contains inst then st
  else { st with
    probeLog := st.probeLog ++ [filePath]
    totalFileSize := st.totalFileSize + size
    createdIds := st.createdIds ++ [inst] }

/-- `MediaInfo(file_path)`: `__new__` followed by `__init__` on the returned
instance. -/
def mediaInfoCall (filePath : String) (size : ℤ) (st : MediaFilesState) :
    Option ℕ × MediaFilesState :=
  match mediaInfoNew filePath st with
  | (none, st1) => (none, st1)
  | (some inst, st1) => (some inst, mediaInfoInit filePath size inst st1)

/-! ## `_MediaProcessor._filter` / `_search_files` (directory walker, claim C8) -/

/-- Python `sub in s` substring containment on character lists. -/
def listInfix (sub : List Char) : List Char → Bool
  | [] => sub.isEmpty
  | c :: rest => sub.isPrefixOf (c :: rest) || listInfix sub rest

/-- Python `kw in name` (case-sensitive substring containment). -/
def strIn (kw name : String) : Bool := listInfix kw.data name.data

/-- The filter configuration carried by the processor (from `Config`):
`includes`, `excludes`, `extensions` and the `--no-subdir` flag. -/
structure WalkerConfig : Type where
  includes : List String
  excludes : List String
  extensions : List String
  noSubdir : Bool

/-- An existing filesystem entry: a file (with its `Path.name` and
`Path.suffix`) or a directory with its `iterdir()` entries in native order. -/
inductive FSEntry : Type where
  | file (name suffix : String)
  | dir (name : String) (entries : List FSEntry)
  deriving Repr

/-- `Path.name`. -/
def FSEntry.entryName : FSEntry → String
  | .file n _ => n
  | .dir n _ => n

/-- `Path.suffix` of a discovered entry; the walker only ever yields files,
whose suffix is carried explicitly. -/
def FSEntry.pathSuffix : FSEntry → String
  | .file _ s => s
  | .dir _ _ => ""

/-- `_MediaProcessor._filter`: directories are rejected on the
include/exclude keyword tests against their own name; files additionally on
the extension allow-list (`file.suffix not in self.extensions`); everything
else passes. -/
def mediaFilter (cfg : WalkerConfig) (f : FSEntry) : Bool :=
  match f with
  | .dir n _ =>
    !((!cfg.includes.isEmpty && !(cfg.includes.any (fun kw => strIn kw n))) ||
      (!cfg.excludes.isEmpty && cfg.excludes.any (fun kw => strIn kw n)))
  | .file n s =>
    !((!cfg.includes.isEmpty && !(cfg.includes.any (fun kw => strIn kw n))) ||
      (!cfg.excludes.isEmpty && cfg.excludes.any (fun kw => strIn kw n)) ||
      (!cfg.extensions.isEmpty && !(cfg.extensions.contains s)))

mutual

/-- `_MediaProcessor._search_files(path, target_files)`: a file root is
appended when it passes the filter; a directory root loops over its entries.
The `target_files` accumulator is threaded explicitly (the source mutates
one shared list). -/
def searchFiles (cfg : WalkerConfig) : FSEntry → List FSEntry → List FSEntry
  | .file n s, targetFiles =>
    if mediaFilter cfg (.file n s) then targetFiles ++ [.file n s]
    else targetFiles
  | .dir _ entries, targetFiles => searchEntries cfg entries targetFiles

/-- The `for f in path.iterdir()` loop body: skip filtered entries; skip
directories under `--no-subdir`, otherwise recurse into them; append files. -/
def searchEntries (cfg : WalkerConfig) : List FSEntry → List FSEntry → List FSEntry
  | [], acc => acc
  | f :: rest, acc =>
    let acc1 :=
      if !mediaFilter cfg f then acc
      else
        match f with
        | .dir n es =>
          if cfg.noSubdir then acc else searchFiles cfg (.dir n es) acc
        | .file n s => acc ++ [.file n s]
    searchEntries cfg rest acc1

end

/-! ## `_MediaProcessor._get_media_info` (catalog assembly, claim C7) -/

/-- The `for processing, file in enumerate(target_files, 1)` loop of
`_get_media_info`: only a file whose `suffix` matches the hard-coded
`'.mkv'` case bumps the `extracted` counter and inserts
`MediaInfo(file)` at key `extracted`; every other file only advances the
progress printout. -/
def getMediaInfoLoop : List FSEntry → ℕ → List (ℕ × FSEntry) → List (ℕ × FSEntry)
  | [], _, data => data
  | f :: rest, extracted, data =>
    if f.pathSuffix == ".mkv" then
      getMediaInfoLoop rest (extracted + 1) (dictSet data (extracted + 1) f)
    else
      getMediaInfoLoop rest extracted data

/-- `_MediaProcessor._get_media_info(target_files)`: the run's catalog,
keyed by the `extracted` counter, holding the file each `MediaInfo` record
was built (and hence probed) from. -/
def getMediaInfoCatalog (targetFiles : List FSEntry) : List (ℕ × FSEntry) :=
  getMediaInfoLoop targetFiles 0 []

/-! # Theorems settling the claims -/

/-- C1: the source does not reuse one `_MediaInfo` object per distinct file
path. Constructing `MediaInfo` twice for the same path `"a"` (whose probed
size is 100 bytes) returns two distinct instances (identities 0 and then 1),
probes the file twice, and adds its size to the class-wide byte counter
twice. The cause: `__new__` tests membership with the `Path` object itself
(`if file_path not in cls._files`) while keys are stored as
`str(file_path)`, so the test never finds an existing entry and a fresh,
not-yet-`created` instance is built and re-initialised every time. -/
theorem mediaInfo_repeat_construction_not_cached :
    (mediaInfoCall "a" 100 initMediaFilesState).1 = some 0 ∧
    (mediaInfoCall "a" 100 (mediaInfoCall "a" 100 initMediaFilesState).2).1 = some 1 ∧
    (mediaInfoCall "a" 100 (mediaInfoCall "a" 100 initMediaFilesState).2).2.probeLog
      = ["a", "a"] ∧
    (mediaInfoCall "a" 100 (mediaInfoCall "a" 100 initMediaFilesState).2).2.totalFileSize
      = 200 := by
  decide

/-- C9: duration formatting and parsing round-trip: formatting 3723.456
seconds yields `"01:02:03.456"`, and parsing that string back recovers
exactly 3723.456 seconds (the embedding computes in exact rationals). -/
theorem duration_format_parse_roundtrip :
    convertDurationToStr ((3723456 : ℚ) / 1000) = "01:02:03.456" ∧
    convertDurationToSec "01:02:03.456" = some ((3723456 : ℚ) / 1000) := by
  constructor
  · exact of_decide_eq_true (by with_unfolding_all rfl)
  · have h1 : strSplitOn ':' "01:02:03.456" = ["01", "02", "03.456"] := by decide
    have h2 : parseFloat "01" = some 1 := of_decide_eq_true (by with_unfolding_all rfl)
    have h3 : parseFloat "02" = some 2 := of_decide_eq_true (by with_unfolding_all rfl)
    have h4 : parseFloat "03.456" = some (3.456 : ℚ) :=
      of_decide_eq_true (by with_unfolding_all rfl)
    rw [convertDurationToSec, if_neg (by decide), h1]
    simp only [h2, h3, h4]
    norm_num

/-- C4: the audio and subtitle track builders do not resolve the language
tag at schema path `tags.language`: they read `track.get('language', '')`
from the stream dictionary itself (the video builder reads
`_tags.get('language', '')`). For a stream whose `tags` carry
`language = "eng"` they therefore yield `"Unknown"` even though the ISO
table maps `"eng"` to `"English"`. -/
theorem streamLanguage_read_from_wrong_key :
    (extractAudioInfo [("codec_type", JVal1.leaf (.s "audio")),
        ("index", JVal1.leaf (.n 1)),
        ("tags", JVal1.obj [("language", JLeaf.s "eng")])]).map AudioTrack.language
      = some "Unknown" ∧
    (extractSubtitleInfo [("codec_type", JVal1.leaf (.s "subtitle")),
        ("index", JVal1.leaf (.n 2)),
        ("tags", JVal1.obj [("language", JLeaf.s "eng")])]).map SubtitleTrack.language
      = some "Unknown" ∧
    dGet LANGUAGE_CODES "eng" = some "English" := by
  decide

/-- C3 counterexample: for a document whose format block has `format_name`
present (here `"matroska"`) but `format_long_name` absent, the built
summary's long format name is the short format name, not `"Unknown"`
(`_format.get('format_long_name', _format_name)`). -/
theorem formatLongName_not_unknown_counterexample :
    (getFormatData [("format", JVal2.obj [("format_name", JVal1.leaf (.s "matroska"))])]).map
        FormatData.format_long_name = some "matroska" ∧
    (getFormatData [("format", JVal2.obj [("format_name", JVal1.leaf (.s "matroska"))])]).map
        FormatData.format_long_name ≠ some "Unknown" := by
  decide

/-- C8: for every filter configuration, running the walker on a root that is
a single existing file returns exactly that root when it passes the file
filter and the empty list otherwise — never more than one path. -/
theorem searchFiles_single_file_root (cfg : WalkerConfig) (n s : String) :
    searchFiles cfg (.file n s) []
      = (if mediaFilter cfg (.file n s) then [FSEntry.file n s] else []) ∧
    (searchFiles cfg (.file n s) [] = [] ∨
      searchFiles cfg (.file n s) [] = [FSEntry.file n s]) := by
  refine ⟨by simp [searchFiles], ?_⟩
  simp only [searchFiles]
  split
  · exact Or.inr (by simp)
  · exact Or.inl rfl

/-- The catalog loop invariant: when every key already in `data` is at most
`k`, the loop appends, at keys `k+1, k+2, …`, exactly the files whose suffix
is `".mkv"`, in order. -/
theorem getMediaInfoLoop_spec (files : List FSEntry) :
    ∀ (k : ℕ) (data : List (ℕ × FSEntry)), (∀ p ∈ data, p.1 ≤ k) →
      getMediaInfoLoop files k data
        = data ++ List.enumFrom (k + 1) (files.filter (fun f => f.pathSuffix == ".mkv")) := by
  induction files with
  | nil => intro k data _; simp [getMediaInfoLoop]
  | cons f rest ih =>
    intro k data hk
    by_cases h : f.pathSuffix == ".mkv"
    · have hmem : dMem data (k + 1) = false := by
        rw [Bool.eq_false_iff]
        intro h'
        rw [dMem, List.any_eq_true] at h'
        obtain ⟨p, hp, heq⟩ := h'
        have h1 := hk p hp
        rw [beq_iff_eq] at heq
        omega
      have hset : dictSet data (k + 1) f = data ++ [(k + 1, f)] := by
        rw [dictSet, hmem]
        simp
      rw [getMediaInfoLoop, if_pos h, hset, ih (k + 1) (data ++ [(k + 1, f)]) ?_]
      · simp [List.filter_cons, h, List.enumFrom]
      · intro p hp
        rcases List.mem_append.mp hp with h1 | h1
        · exact Nat.le_succ_of_le (hk p h1)
        · rw [List.mem_singleton] at h1
          rw [h1]
    · rw [getMediaInfoLoop, if_neg h, ih k data hk,
        List.filter_cons_of_neg (by simpa using h)]

/-- C7: the catalog built by `_get_media_info` over the discovered files is
exactly the `".mkv"` files in discovery order, keyed by the contiguous
1-based counter that increments only for files passing that hard-coded
suffix gate; every other discovered file (for example a `.txt` file that
passed the walker's configurable filter) contributes nothing and is never
passed to `MediaInfo` (never probed). -/
theorem buildCatalog_only_mkv_contiguous (files : List FSEntry) :
    getMediaInfoCatalog files
      = List.enumFrom 1 (files.filter (fun f => f.pathSuffix == ".mkv")) := by
  simpa [getMediaInfoCatalog] using getMediaInfoLoop_spec files 0 [] (by simp)

/-- The non-zero-exit `QueryError` message (which always starts with
`"[ERROR] "`) never coincides with the empty-output `QueryError` message,
whatever the appended execution-error text. -/
theorem probeExecMsg_ne_emptyOutputMsg (m : String) :
    ("[ERROR] Failed to execute ffprobe: " ++ m)
      ≠ "Failed to get raw data from ffprobe." := by
  intro h
  have e1 : ("[ERROR] Failed to execute ffprobe: " ++ m).data
      = '[' :: ("ERROR] Failed to execute ffprobe: ".data ++ m.data) := rfl
  have e2 : ("Failed to get raw data from ffprobe." : String).data
      = 'F' :: "ailed to get raw data from ffprobe.".data := rfl
  have h2 := congrArg String.data h
  rw [e1, e2] at h2
  have h3 := congrArg List.head? h2
  rw [List.head?_cons, List.head?_cons, Option.some.injEq] at h3
  exact absurd h3 (by decide)

/-- C2: the three failure conditions of `_get_raw_data` — tool missing from
the search path, tool runs but exits non-zero, and output error (standard
output empty or unparsable) — are mutually distinguishable outcomes. A
missing tool raises `RuntimeError`; a tool that runs but exits non-zero
raises `QueryError` with a message starting
`"[ERROR] Failed to execute ffprobe: "`; empty standard output raises
`QueryError` with the fixed message `"Failed to get raw data from
ffprobe."`; non-empty unparsable output raises `json.JSONDecodeError`. All
four outcomes are pairwise distinct: in particular the tool-missing failure
differs from each of the others (different exception class), a
non-zero-exit failure differs from an empty-output failure (same exception
class, provably different message, whatever the execution-error text), and
an empty-output failure differs from an unparsable-output failure
(different exception class). -/
theorem probe_failures_mutually_distinguishable (e0 e1 e2 e3 : ProbeEnv)
    (h0 : e0.whichFFprobe = none)
    (h1 : e1.whichFFprobe.isSome) (h2 : e1.exitZero = false)
    (h3 : e2.whichFFprobe.isSome) (h4 : e2.exitZero = true) (h5 : e2.stdout = "")
    (h6 : e3.whichFFprobe.isSome) (h7 : e3.exitZero = true) (h8 : e3.stdout ≠ "")
    (h9 : e3.jsonParse = none) :
    getRawData e0 ≠ getRawData e1 ∧ getRawData e0 ≠ getRawData e2 ∧
      getRawData e0 ≠ getRawData e3 ∧ getRawData e1 ≠ getRawData e2 ∧
      getRawData e2 ≠ getRawData e3 ∧ getRawData e1 ≠ getRawData e3 := by
  obtain ⟨p1, hp1⟩ := Option.isSome_iff_exists.mp h1
  obtain ⟨p2, hp2⟩ := Option.isSome_iff_exists.mp h3
  obtain ⟨p3, hp3⟩ := Option.isSome_iff_exists.mp h6
  have g0 : getRawData e0
      = .runtimeError
        "ffprobe not found, please make sure you installed ffmpeg correctly." := by
    rw [getRawData, h0]
  have g1 : getRawData e1
      = .queryError ("[ERROR] Failed to execute ffprobe: " ++ e1.procErrStr) := by
    rw [getRawData, hp1, h2]
    rfl
  have g2 : getRawData e2 = .queryError "Failed to get raw data from ffprobe." := by
    rw [getRawData, hp2, h4]
    simp [h5]
  have g3 : getRawData e3 = .jsonDecodeError := by
    rw [getRawData, hp3, h7]
    simp [h8, h9]
  refine ⟨?_, ?_, ?_, ?_, ?_, ?_⟩
  · rw [g0, g1]
    intro heq
    exact ProbeOutcome.noConfusion heq
  · rw [g0, g2]
    intro heq
    exact ProbeOutcome.noConfusion heq
  · rw [g0, g3]
    intro heq
    exact ProbeOutcome.noConfusion heq
  · rw [g1, g2]
    intro heq
    rw [ProbeOutcome.queryError.injEq] at heq
    exact probeExecMsg_ne_emptyOutputMsg e1.procErrStr heq
  · rw [g2, g3]
    intro heq
    exact ProbeOutcome.noConfusion heq
  · rw [g1, g3]
    intro heq
    exact ProbeOutcome.noConfusion heq

/-- Witness for C2 at a concrete environment quadruple: the tool absent,
the tool present but exiting non-zero, the tool succeeding with empty
output, and the tool succeeding with non-empty unparsable output. -/
theorem probe_failures_mutually_distinguishable_witness :
    getRawData ⟨none, true, "", "", none⟩
      ≠ getRawData ⟨some "/usr/bin/ffprobe", false, "exit status 1", "", none⟩ ∧
    getRawData ⟨none, true, "", "", none⟩
      ≠ getRawData ⟨some "/usr/bin/ffprobe", true, "", "", none⟩ ∧
    getRawData ⟨none, true, "", "", none⟩
      ≠ getRawData ⟨some "/usr/bin/ffprobe", true, "", "oops", none⟩ ∧
    getRawData ⟨some "/usr/bin/ffprobe", false, "exit status 1", "", none⟩
      ≠ getRawData ⟨some "/usr/bin/ffprobe", true, "", "", none⟩ ∧
    getRawData ⟨some "/usr/bin/ffprobe", true, "", "", none⟩
      ≠ getRawData ⟨some "/usr/bin/ffprobe", true, "", "oops", none⟩ ∧
    getRawData ⟨some "/usr/bin/ffprobe", false, "exit status 1", "", none⟩
      ≠ getRawData ⟨some "/usr/bin/ffprobe", true, "", "oops", none⟩ :=
  probe_failures_mutually_distinguishable _ _ _ _ rfl rfl rfl rfl rfl rfl rfl
    rfl (by decide) rfl

/-- C3 (amended): the FormatSummary builder defaults every missing numeric
field to 0 and the missing string fields `format_name`, `ENCODER` and
`ENCODING_INFO` to `"Unknown"`; a missing `format_long_name`, however,
defaults to the (possibly itself defaulted) short format name, so it is
`"Unknown"` only when `format_name` is also absent. -/
theorem getFormatData_missing_field_defaults (rawInfo : RawInfo) (fmt : Dict1)
    (tags : List (String × JLeaf)) (fd : FormatData)
    (hfmt : asObj2 (dGetD rawInfo "format" (.obj [])) = some fmt)
    (htags : asObj1 (dGetD fmt "tags" (.obj [])) = some tags)
    (h : getFormatData rawInfo = some fd) :
    (dGet fmt "size" = none → fd.size = 0) ∧
    (dGet fmt "duration" = none → fd.duration = 0) ∧
    (dGet fmt "probe_score" = none → fd.score = 0) ∧
    (dGet fmt "bit_rate" = none → fd.bitrate = 0) ∧
    (dGet fmt "format_name" = none → fd.format = "Unknown") ∧
    (dGet tags "ENCODER" = none → fd.encoder = "Unknown") ∧
    (dGet tags "ENCODING_INFO" = none → fd.encoding_info = "Unknown") ∧
    (dGet fmt "format_long_name" = none → fd.format_long_name = fd.format) := by
  rw [getFormatData, hfmt] at h
  simp only [Option.bind_eq_bind, Option.some_bind, htags] at h
  obtain ⟨size, hsize, h⟩ := Option.bind_eq_some.mp h
  obtain ⟨dur, hdur, h⟩ := Option.bind_eq_some.mp h
  obtain ⟨fname, hfname, h⟩ := Option.bind_eq_some.mp h
  obtain ⟨flong, hflong, h⟩ := Option.bind_eq_some.mp h
  obtain ⟨score, hscore, h⟩ := Option.bind_eq_some.mp h
  obtain ⟨bitrate, hbitrate, h⟩ := Option.bind_eq_some.mp h
  obtain ⟨encoder, hencoder, h⟩ := Option.bind_eq_some.mp h
  obtain ⟨encinfo, hencinfo, h⟩ := Option.bind_eq_some.mp h
  simp only [Option.pure_def, Option.some.injEq] at h
  subst h
  refine ⟨?_, ?_, ?_, ?_, ?_, ?_, ?_, ?_⟩
  · intro hn
    rw [dGetD, hn] at hsize
    simp [pyInt1, asLeaf1, pyIntL, ratTrunc] at hsize
    exact hsize.symm
  · intro hn
    rw [dGetD, hn] at hdur
    simp [pyFloat1, asLeaf1, pyFloatL] at hdur
    exact hdur.symm
  · intro hn
    rw [dGetD, hn] at hscore
    simp [pyInt1, asLeaf1, pyIntL, ratTrunc] at hscore
    exact hscore.symm
  · intro hn
    rw [dGetD, hn] at hbitrate
    simp [pyInt1, asLeaf1, pyIntL, ratTrunc] at hbitrate
    exact hbitrate.symm
  · intro hn
    rw [dGetD, hn] at hfname
    simp [asStr1, asLeaf1, asStrL] at hfname
    exact hfname.symm
  · intro hn
    rw [dGetD, hn] at hencoder
    simp [asStrL] at hencoder
    exact hencoder.symm
  · intro hn
    rw [dGetD, hn] at hencinfo
    simp [asStrL] at hencinfo
    exact hencinfo.symm
  · intro hn
    rw [dGetD, hn] at hflong
    simp [asStr1, asLeaf1, asStrL] at hflong
    simp [← hflong]

/-- The record `getFormatData` builds for the witness document whose format
block holds only `format_name = "x"`. -/
def formatDataForNameOnlyX : FormatData :=
  { score := 0, size := 0, duration := 0, duration_str := "00:00:00.000",
    format := "x", format_long_name := "x", bitrate := 0,
    encoder := "Unknown", encoding_info := "Unknown" }

/-- Witness for C3 (amended) at a document whose format block holds only
`format_name = "x"`: the built record's size defaults to 0 and its long
format name equals its short one. -/
theorem getFormatData_missing_field_defaults_witness :
    formatDataForNameOnlyX.size = 0 ∧
    formatDataForNameOnlyX.format_long_name = formatDataForNameOnlyX.format := by
  have h := getFormatData_missing_field_defaults
    [("format", .obj [("format_name", .leaf (.s "x"))])]
    [("format_name", .leaf (.s "x"))] [] formatDataForNameOnlyX
    (by decide) (by decide) (by decide)
  exact ⟨h.1 (by decide), h.2.2.2.2.2.2.2 (by decide)⟩

/-- C5: the derived frame rate of a video stream. Given the stream's tag
reads — `DURATION` parsed to `d` seconds and `NUMBER_OF_FRAMES` to `f` — the
built track's `duration_sec` is `d` and its `fps` is
`round(f / d, 5)` when both are nonzero and `0` whenever `d = 0` or
`f = 0`. The embedding computes in total rational arithmetic, so the
division in the nonzero branch is the only one performed, never with a zero
divisor, and no value is NaN or infinite. -/
theorem extractVideoInfo_fps_spec (track : Dict1) (tags : List (String × JLeaf))
    (dstr : String) (d : ℚ) (f : ℤ) (tr : VideoTrack)
    (htags : asObj1 (dGetD track "tags" (.obj [])) = some tags)
    (hdstr : asStrL (dGetD tags "DURATION" (.s "")) = some dstr)
    (hd : convertDurationToSec dstr = some d)
    (hf : pyIntL (dGetD tags "NUMBER_OF_FRAMES" (.n 0)) = some f)
    (h : extractVideoInfo track = some tr) :
    tr.duration_sec = d ∧
    tr.fps = (if d ≠ 0 ∧ f ≠ 0 then pyRound5 ((f : ℚ) / d) else 0) ∧
    (d = 0 ∨ f = 0 → tr.fps = 0) := by
  rw [extractVideoInfo] at h
  simp only [Option.bind_eq_bind, htags, Option.some_bind] at h
  obtain ⟨disp, hdisp, h⟩ := Option.bind_eq_some.mp h
  obtain ⟨geom, hgeom, h⟩ := Option.bind_eq_some.mp h
  obtain ⟨w, hh, pw, ph⟩ := geom
  obtain ⟨tagdata, htagdata, h⟩ := Option.bind_eq_some.mp h
  obtain ⟨dstr', d', f', bps⟩ := tagdata
  rw [readVideoTagData] at htagdata
  simp only [Option.bind_eq_bind, hdstr, Option.some_bind, hd, hf,
    Option.pure_def, Option.some.injEq, Prod.mk.injEq] at htagdata
  obtain ⟨bps', hbps, heq⟩ := Option.bind_eq_some.mp htagdata
  simp only [Option.some.injEq, Prod.mk.injEq] at heq
  obtain ⟨heq1, heq2, heq3, heq4⟩ := heq
  subst heq1
  subst heq2
  subst heq3
  subst heq4
  obtain ⟨strs, hstrs, h⟩ := Option.bind_eq_some.mp h
  obtain ⟨dar, pf, cr, cs, ct, cp⟩ := strs
  obtain ⟨ix, hix, h⟩ := Option.bind_eq_some.mp h
  obtain ⟨dflt, hdflt, h⟩ := Option.bind_eq_some.mp h
  obtain ⟨frc, hfrc, h⟩ := Option.bind_eq_some.mp h
  obtain ⟨cdc, hcdc, h⟩ := Option.bind_eq_some.mp h
  simp only [Option.pure_def, Option.some.injEq] at h
  subst h
  refine ⟨rfl, rfl, ?_⟩
  intro hz
  have hnot : ¬ (d ≠ 0 ∧ f ≠ 0) := by tauto
  simp only [if_neg hnot]

/-- The stream dictionary of the C5 witness: a video stream whose tags carry
`DURATION = "00:00:10.000"` and `NUMBER_OF_FRAMES = "240"`. -/
def videoFpsWitnessTrack : Dict1 :=
  [("codec_type", .leaf (.s "video")), ("index", .leaf (.n 0)),
    ("tags", .obj [("DURATION", .s "00:00:10.000"), ("NUMBER_OF_FRAMES", .s "240")])]

/-- Witness for C5: 240 frames over 10 seconds derive 24 fps. -/
theorem extractVideoInfo_fps_spec_witness :
    (extractVideoInfo videoFpsWitnessTrack).map VideoTrack.fps = some 24 := by
  have hs : (extractVideoInfo videoFpsWitnessTrack).isSome = true :=
    of_decide_eq_true (by with_unfolding_all rfl)
  obtain ⟨tr, htr⟩ := Option.isSome_iff_exists.mp hs
  have hd : convertDurationToSec "00:00:10.000" = some 10 := by
    have h1 : strSplitOn ':' "00:00:10.000" = ["00", "00", "10.000"] := by decide
    have h2 : parseFloat "00" = some 0 := of_decide_eq_true (by with_unfolding_all rfl)
    have h3 : parseFloat "10.000" = some 10 :=
      of_decide_eq_true (by with_unfolding_all rfl)
    rw [convertDurationToSec, if_neg (by decide), h1]
    simp only [h2, h3]
    norm_num
  have h := extractVideoInfo_fps_spec videoFpsWitnessTrack
    [("DURATION", .s "00:00:10.000"), ("NUMBER_OF_FRAMES", .s "240")]
    "00:00:10.000" 10 240 tr (by decide) (by decide) hd (by decide) htr
  rw [htr]
  simp only [Option.map_some']
  rw [h.2.1, if_pos ⟨by norm_num, by norm_num⟩]
  norm_num [pyRound5, roundHalfEven]

/-- Processing a two-stream document whose streams share one recognized
codec type and one index: the run succeeds, the type's bucket holds exactly
the first stream's record, `_tracks_by_type` holds the index twice, and
`_tracks` holds the single binding of that index to the type. -/
theorem getTracksData_pair_same_index (s1 s2 : Dict1) (t : String) (i : ℤ)
    (tr1 tr2 : TrackTypes)
    (ht1 : dGetD s1 "codec_type" (.leaf (.s "Unknown")) = .leaf (.s t))
    (ht2 : dGetD s2 "codec_type" (.leaf (.s "Unknown")) = .leaf (.s t))
    (hx1 : extractTrackOfType t s1 = some tr1)
    (hx2 : extractTrackOfType t s2 = some tr2)
    (hi1 : tr1.trackIndex = some i)
    (hi2 : tr2.trackIndex = some i) :
    ∃ st, getTracksData [s1, s2] = some st ∧
      bucketEntries st t = [(i, tr1)] ∧
      dGet st.tracks_by_type t = some [i, i] ∧
      st.tracks = [(i, t)] := by
  by_cases h1 : t = "video"
  · subst h1
    rw [extractTrackOfType, if_pos rfl] at hx1 hx2
    obtain ⟨v1, hv1, htr1⟩ := Option.map_eq_some'.mp hx1
    obtain ⟨v2, hv2, htr2⟩ := Option.map_eq_some'.mp hx2
    subst htr1
    subst htr2
    simp only [TrackTypes.trackIndex] at hi1 hi2
    have hp1 : processTrack initTracksState s1
        = some ⟨[(i, "video")], [("video", [i])], [(i, v1)], [], [], [], 0⟩ := by
      simp [processTrack, ht1, hv1, hi1, initTracksState, dMem, dictSet,
        recordTrack, dGet]
    have hp2 : processTrack ⟨[(i, "video")], [("video", [i])], [(i, v1)], [], [], [], 0⟩ s2
        = some ⟨[(i, "video")], [("video", [i, i])], [(i, v1)], [], [], [], 0⟩ := by
      simp [processTrack, ht2, hv2, hi2, dMem, dictSet, recordTrack, dGet]
    refine ⟨⟨[(i, "video")], [("video", [i, i])], [(i, v1)], [], [], [], 0⟩, ?_, ?_, ?_, rfl⟩
    · simp [getTracksData, List.foldlM, hp1, hp2]
    · simp [bucketEntries]
    · simp [dGet]
  by_cases h2 : t = "audio"
  · subst h2
    rw [extractTrackOfType, if_neg (by decide), if_pos rfl] at hx1 hx2
    obtain ⟨v1, hv1, htr1⟩ := Option.map_eq_some'.mp hx1
    obtain ⟨v2, hv2, htr2⟩ := Option.map_eq_some'.mp hx2
    subst htr1
    subst htr2
    simp only [TrackTypes.trackIndex] at hi1 hi2
    have hp1 : processTrack initTracksState s1
        = some ⟨[(i, "audio")], [("audio", [i])], [], [(i, v1)], [], [], 0⟩ := by
      simp [processTrack, ht1, hv1, hi1, initTracksState, dMem, dictSet,
        recordTrack, dGet]
    have hp2 : processTrack ⟨[(i, "audio")], [("audio", [i])], [], [(i, v1)], [], [], 0⟩ s2
        = some ⟨[(i, "audio")], [("audio", [i, i])], [], [(i, v1)], [], [], 0⟩ := by
      simp [processTrack, ht2, hv2, hi2, dMem, dictSet, recordTrack, dGet]
    refine ⟨⟨[(i, "audio")], [("audio", [i, i])], [], [(i, v1)], [], [], 0⟩, ?_, ?_, ?_, rfl⟩
    · simp [getTracksData, List.foldlM, hp1, hp2]
    · simp [bucketEntries]
    · simp [dGet]
  by_cases h3 : t = "subtitle"
  · subst h3
    rw [extractTrackOfType, if_neg (by decide), if_neg (by decide),
      if_pos rfl] at hx1 hx2
    obtain ⟨v1, hv1, htr1⟩ := Option.map_eq_some'.mp hx1
    obtain ⟨v2, hv2, htr2⟩ := Option.map_eq_some'.mp hx2
    subst htr1
    subst htr2
    simp only [TrackTypes.trackIndex] at hi1 hi2
    have hp1 : processTrack initTracksState s1
        = some ⟨[(i, "subtitle")], [("subtitle", [i])], [], [], [(i, v1)], [], 0⟩ := by
      simp [processTrack, ht1, hv1, hi1, initTracksState, dMem, dictSet,
        recordTrack, dGet]
    have hp2 : processTrack ⟨[(i, "subtitle")], [("subtitle", [i])], [], [], [(i, v1)], [], 0⟩ s2
        = some ⟨[(i, "subtitle")], [("subtitle", [i, i])], [], [], [(i, v1)], [], 0⟩ := by
      simp [processTrack, ht2, hv2, hi2, dMem, dictSet, recordTrack, dGet]
    refine ⟨⟨[(i, "subtitle")], [("subtitle", [i, i])], [], [], [(i, v1)], [], 0⟩, ?_, ?_, ?_, rfl⟩
    · simp [getTracksData, List.foldlM, hp1, hp2]
    · simp [bucketEntries]
    · simp [dGet]
  by_cases h4 : t = "attachment"
  · subst h4
    rw [extractTrackOfType, if_neg (by decide), if_neg (by decide),
      if_neg (by decide), if_pos rfl] at hx1 hx2
    obtain ⟨v1, hv1, htr1⟩ := Option.map_eq_some'.mp hx1
    obtain ⟨v2, hv2, htr2⟩ := Option.map_eq_some'.mp hx2
    subst htr1
    subst htr2
    simp only [TrackTypes.trackIndex] at hi1 hi2
    have key : ∀ fonts1 fonts2 : ℤ,
        (if isFontCodec s1 then (0 : ℤ) + 1 else 0) = fonts1 →
        (if isFontCodec s2 then fonts1 + 1 else fonts1) = fonts2 →
        ∃ st, getTracksData [s1, s2] = some st ∧
          bucketEntries st "attachment" = [(i, TrackTypes.attach v1)] ∧
          dGet st.tracks_by_type "attachment" = some [i, i] ∧
          st.tracks = [(i, "attachment")] := by
      intro fonts1 fonts2 hf1 hf2
      have hp1 : processTrack initTracksState s1
          = some ⟨[(i, "attachment")], [("attachment", [i])], [], [], [], [(i, v1)], fonts1⟩ := by
        rw [← hf1]
        by_cases hc : isFontCodec s1 <;>
          simp [processTrack, ht1, hv1, hi1, initTracksState, dMem, dictSet,
            recordTrack, dGet, hc]
      have hp2 : processTrack
            ⟨[(i, "attachment")], [("attachment", [i])], [], [], [], [(i, v1)], fonts1⟩ s2
          = some ⟨[(i, "attachment")], [("attachment", [i, i])], [], [], [], [(i, v1)], fonts2⟩ := by
        rw [← hf2]
        by_cases hc : isFontCodec s2 <;>
          simp [processTrack, ht2, hv2, hi2, dMem, dictSet, recordTrack, dGet, hc]
      refine ⟨⟨[(i, "attachment")], [("attachment", [i, i])], [], [], [], [(i, v1)], fonts2⟩,
        ?_, ?_, ?_, rfl⟩
      · simp [getTracksData, List.foldlM, hp1, hp2]
      · simp [bucketEntries]
      · simp [dGet]
    exact key _ _ rfl rfl
  · rw [extractTrackOfType, if_neg h1, if_neg h2, if_neg h3, if_neg h4] at hx1
    exact absurd hx1 (by simp)

/-- C6: for a probe document of two streams of the same recognized codec
type reporting the same index, only the first stream's track record is
retained in that type's bucket — the duplicate is dropped without error —
so the bucket's indices are unique and the per-type track count is 1,
not 2. -/
theorem duplicate_index_first_write_wins (s1 s2 : Dict1) (t : String) (i : ℤ)
    (tr1 tr2 : TrackTypes)
    (ht1 : dGetD s1 "codec_type" (.leaf (.s "Unknown")) = .leaf (.s t))
    (ht2 : dGetD s2 "codec_type" (.leaf (.s "Unknown")) = .leaf (.s t))
    (hx1 : extractTrackOfType t s1 = some tr1)
    (hx2 : extractTrackOfType t s2 = some tr2)
    (hi1 : tr1.trackIndex = some i)
    (hi2 : tr2.trackIndex = some i) :
    ∃ st, getTracksData [s1, s2] = some st ∧
      bucketEntries st t = [(i, tr1)] ∧ bucketCount st t = 1 := by
  obtain ⟨st, hrun, hbucket, hby, htracks⟩ :=
    getTracksData_pair_same_index s1 s2 t i tr1 tr2 ht1 ht2 hx1 hx2 hi1 hi2
  refine ⟨st, hrun, hbucket, ?_⟩
  rw [bucketCount, hbucket]
  rfl

/-- The first audio stream of the C6 witness document (index 0, no other
fields). -/
def dupAudioStream1 : Dict1 :=
  [("codec_type", .leaf (.s "audio")), ("index", .leaf (.n 0))]

/-- The second audio stream of the C6 witness document: same index 0, but a
distinct record (its codec name differs). -/
def dupAudioStream2 : Dict1 :=
  [("codec_type", .leaf (.s "audio")), ("index", .leaf (.n 0)),
    ("codec_name", .leaf (.s "aac"))]

/-- The track record extracted from `dupAudioStream1`. -/
def dupAudioTrack1 : AudioTrack :=
  { index := some 0, codec := "Unknown", channels := 0, sample_rate := 0,
    language := "Unknown", bit_depth := 0, duration := 0 }

/-- The track record extracted from `dupAudioStream2`. -/
def dupAudioTrack2 : AudioTrack :=
  { index := some 0, codec := "aac", channels := 0, sample_rate := 0,
    language := "Unknown", bit_depth := 0, duration := 0 }

/-- Witness for C6 at two concrete audio streams sharing index 0: the audio
bucket keeps the first record only and counts one track. -/
theorem duplicate_index_first_write_wins_witness :
    ∃ st, getTracksData [dupAudioStream1, dupAudioStream2] = some st ∧
      bucketEntries st "audio" = [(0, TrackTypes.audio dupAudioTrack1)] ∧
      bucketCount st "audio" = 1 :=
  duplicate_index_first_write_wins dupAudioStream1 dupAudioStream2 "audio" 0
    (TrackTypes.audio dupAudioTrack1) (TrackTypes.audio dupAudioTrack2)
    (by decide) (by decide) (by decide) (by decide) (by decide) (by decide)

/-- C10: for the same two-stream document, the classification step also
appends the duplicate's index to the per-type list `tracks_by_type` even
though the typed-bucket insertion was skipped: that list holds the index
twice (length 2, exceeding the per-type bucket count of 1), while
`total_tracks` — the size of the index-to-type map `_tracks` — stays 1. -/
theorem duplicate_index_appended_twice_by_type (s1 s2 : Dict1) (t : String)
    (i : ℤ) (tr1 tr2 : TrackTypes)
    (ht1 : dGetD s1 "codec_type" (.leaf (.s "Unknown")) = .leaf (.s t))
    (ht2 : dGetD s2 "codec_type" (.leaf (.s "Unknown")) = .leaf (.s t))
    (hx1 : extractTrackOfType t s1 = some tr1)
    (hx2 : extractTrackOfType t s2 = some tr2)
    (hi1 : tr1.trackIndex = some i)
    (hi2 : tr2.trackIndex = some i) :
    ∃ st, getTracksData [s1, s2] = some st ∧
      dGet st.tracks_by_type t = some [i, i] ∧
      ((dGet st.tracks_by_type t).getD []).length = 2 ∧
      bucketCount st t = 1 ∧ totalTracks st = 1 := by
  obtain ⟨st, hrun, hbucket, hby, htracks⟩ :=
    getTracksData_pair_same_index s1 s2 t i tr1 tr2 ht1 ht2 hx1 hx2 hi1 hi2
  refine ⟨st, hrun, hby, ?_, ?_, ?_⟩
  · rw [hby]
    rfl
  · rw [bucketCount, hbucket]
    rfl
  · rw [totalTracks, htracks]
    rfl

/-- The first subtitle stream of the C10 witness document (index 2). -/
def dupSubtitleStream1 : Dict1 :=
  [("codec_type", .leaf (.s "subtitle")), ("index", .leaf (.n 2))]

/-- The second subtitle stream of the C10 witness document: same index 2,
distinct codec name. -/
def dupSubtitleStream2 : Dict1 :=
  [("codec_type", .leaf (.s "subtitle")), ("index", .leaf (.n 2)),
    ("codec_name", .leaf (.s "ass"))]

/-- The track record extracted from `dupSubtitleStream1`. -/
def dupSubtitleTrack1 : SubtitleTrack :=
  { index := some 2, codec := "Unknown", language := "Unknown", forced := false,
    default := false, hearing_impaired := false, visual_impaired := false,
    font_name := "Unknown", mimetype := "Unknown", duration := 0 }

/-- The track record extracted from `dupSubtitleStream2`. -/
def dupSubtitleTrack2 : SubtitleTrack :=
  { index := some 2, codec := "ass", language := "Unknown", forced := false,
    default := false, hearing_impaired := false, visual_impaired := false,
    font_name := "Unknown", mimetype := "Unknown", duration := 0 }

/-- Witness for C10 at two concrete subtitle streams sharing index 2. -/
theorem duplicate_index_appended_twice_by_type_witness :
    ∃ st, getTracksData [dupSubtitleStream1, dupSubtitleStream2] = some st ∧
      dGet st.tracks_by_type "subtitle" = some [2, 2] ∧
      ((dGet st.tracks_by_type "subtitle").getD []).length = 2 ∧
      bucketCount st "subtitle" = 1 ∧ totalTracks st = 1 :=
  duplicate_index_appended_twice_by_type dupSubtitleStream1 dupSubtitleStream2
    "subtitle" 2 (TrackTypes.subtitle dupSubtitleTrack1)
    (TrackTypes.subtitle dupSubtitleTrack2)
    (by decide) (by decide) (by decide) (by decide) (by decide) (by decide)
